import Mathlib

/-!
Shallow embedding of `src/mod.ts` (the streaming CSV merge tool) and proofs
about it.

Modelling conventions:
* CSV cell values are JavaScript strings; a missing column reads as
  `undefined`. We model the `any`-typed raw values with `JsVal`
  (`undef`/`str`/`bool`; the `bool` case exists because `formatAccident`
  compares `a.hasWitness === true`). Arrays never occur as raw CSV values,
  so `JsVal` has no array case; the `Array.isArray` branches of the source
  are noted where they are modelled away.
* JavaScript numbers produced by `parseFloat` are modelled exactly as scaled
  decimals `m * 10^p` (constructor `JsNum.fin m p`) instead of IEEE doubles:
  every literal `parseFloat` accepts denotes such a value. Divergences from
  double rounding only affect digits beyond the 17th and extreme exponents,
  which no claim touches.
* `moment-jalaali` (the external date library) is modelled by its bundled
  jalaali-js arithmetic (`jalCal`, `g2d`, `d2g`, `j2d`, translated
  verbatim, with `~~(a/b)` as truncating `Int.tdiv`) plus moment's
  non-strict token matching: each numeric token skips to the first digit
  and greedily takes up to its width, a literal separator skips past its
  first occurrence if any. `jalCal` throws on a year outside [-61, 3177];
  we thread that exception with `Except Unit` up to the `try/catch` of
  `convertJalaliToGregorian`, which returns the original input.
* `Date.prototype.setHours` overflow is normalised by shifting whole days
  through `g2d`/`d2g`; time zones and DST are out of the model (dates are
  treated as pure calendar data).
-/

/-! ## JavaScript value primitives -/

/-- Raw value of one CSV cell as the `any`-typed TypeScript code sees it. -/
inductive JsVal where
  | undef : JsVal
  | str : String → JsVal
  | bool : Bool → JsVal
deriving DecidableEq

/-- JavaScript `String(v)` coercion on the values we model. -/
def jsValToString (v : JsVal) : String :=
  match v with
  | .undef => "undefined"
  | .str s => s
  | .bool true => "true"
  | .bool false => "false"

/-- JavaScript truthiness of a `JsVal`. -/
def jsTruthy (v : JsVal) : Bool :=
  match v with
  | .undef => false
  | .str s => s ≠ ""
  | .bool b => b

/-- JavaScript `v || d` in a string position: `d` when `v` is falsy. -/
def orString (v : JsVal) (d : String) : String :=
  if jsTruthy v then jsValToString v else d

/-- JavaScript `String(v || "")`. -/
def jsStringOrEmpty (v : JsVal) : String :=
  orString v ""

/-- The WhiteSpace and LineTerminator set of `String.prototype.trim` and of
the regex class `\s`. -/
def isJsWhitespace (c : Char) : Bool :=
  let n := c.toNat
  n == 0x9 || n == 0xA || n == 0xB || n == 0xC || n == 0xD || n == 0x20 ||
  n == 0xA0 || n == 0x1680 || (0x2000 ≤ n && n ≤ 0x200A) || n == 0x2028 ||
  n == 0x2029 || n == 0x202F || n == 0x205F || n == 0x3000 || n == 0xFEFF

/-- JavaScript `String.prototype.trim`. -/
def jsTrim (s : String) : String :=
  String.mk (((s.data.dropWhile isJsWhitespace).reverse.dropWhile isJsWhitespace).reverse)

/-- The regex word-character class `\w` of a non-unicode JavaScript regex:
ASCII letters, digits and underscore (`\b` tests against this class). -/
def isWordChar (c : Char) : Bool :=
  c.isAlpha || c.isDigit || c == '_'

/-- Scan for `\b(p1|p2|...)\d{2}\b` where each `p` is a fixed two-digit
prefix: the first argument lists the allowed leading character pairs, the
`Option Char` is the character before the current position (`none` at the
start of the string). -/
def yearTokenScan (alts : List (Char × Char)) : Option Char → List Char → Bool
  | prev, c1 :: c2 :: c3 :: c4 :: rest =>
      ((match prev with | none => true | some p => !isWordChar p) &&
       alts.contains (c1, c2) && c3.isDigit && c4.isDigit &&
       (match rest with | [] => true | r :: _ => !isWordChar r)) ||
      yearTokenScan alts (some c1) (c2 :: c3 :: c4 :: rest)
  | _, _ => false

/-- The test `/\b(19|20)\d{2}\b/.test(s)` of `convertJalaliToGregorian`. -/
def gregorianPatternTest (s : String) : Bool :=
  yearTokenScan [('1', '9'), ('2', '0')] none s.data

/-- The test `/\b(13|14|15)\d{2}\b/.test(s)` of `convertJalaliToGregorian`. -/
def jalaliPatternTest (s : String) : Bool :=
  yearTokenScan [('1', '3'), ('1', '4'), ('1', '5')] none s.data

/-- Decimal digits to a natural number. -/
def digitsToNat (ds : List Char) : Nat :=
  ds.foldl (fun a c => a * 10 + (c.toNat - '0'.toNat)) 0

def isHexDigitChar (c : Char) : Bool :=
  c.isDigit || ('a' ≤ c && c ≤ 'f') || ('A' ≤ c && c ≤ 'F')

def hexDigitVal (c : Char) : Nat :=
  if c.isDigit then c.toNat - '0'.toNat
  else if 'a' ≤ c && c ≤ 'f' then c.toNat - 'a'.toNat + 10
  else c.toNat - 'A'.toNat + 10

def hexDigitsToNat (ds : List Char) : Nat :=
  ds.foldl (fun a c => a * 16 + hexDigitVal c) 0

/-- JavaScript `parseInt(s)` with no radix argument: skips whitespace, takes
an optional sign, a `0x`/`0X` hexadecimal literal or a run of decimal
digits, ignores the rest; `none` models `NaN`. Values are exact integers
(the double rounding beyond 2^53 is outside the model). -/
def jsParseInt (s : String) : Option Int :=
  let cs := s.data.dropWhile isJsWhitespace
  let sign : Int := match cs with | '-' :: _ => -1 | _ => 1
  let cs := match cs with | '-' :: t => t | '+' :: t => t | _ => cs
  match cs with
  | '0' :: x :: t =>
      if x == 'x' || x == 'X' then
        match t.takeWhile isHexDigitChar with
        | [] => none
        | ds => some (sign * (hexDigitsToNat ds : Int))
      else
        some (sign * (digitsToNat (('0' :: x :: t).takeWhile Char.isDigit) : Int))
  | c :: _ =>
      if c.isDigit then some (sign * (digitsToNat (cs.takeWhile Char.isDigit) : Int))
      else none
  | [] => none

/-- A JavaScript number as this model represents it: `fin m p` is the exact
value `m * 10^p`, `inf` the two infinities. (`NaN` is represented by the
`none` of `jsParseFloat`.) -/
inductive JsNum where
  | fin : Int → Int → JsNum
  | inf : Bool → JsNum
deriving DecidableEq

/-- JavaScript `parseFloat(s)`: skips whitespace, reads the longest prefix
that is a signed decimal literal (`digits[.digits][e[+-]digits]`, or
`Infinity`); `none` models `NaN`. -/
def jsParseFloat (s : String) : Option JsNum :=
  let cs := s.data.dropWhile isJsWhitespace
  let neg : Bool := match cs with | '-' :: _ => true | _ => false
  let cs := match cs with | '-' :: t => t | '+' :: t => t | _ => cs
  if cs.take 8 = "Infinity".data then some (.inf (!neg))
  else
    let ip := cs.takeWhile Char.isDigit
    let cs1 := cs.drop ip.length
    let fp := match cs1 with
      | '.' :: t => t.takeWhile Char.isDigit
      | _ => []
    let cs2 := match cs1 with
      | '.' :: t => t.drop fp.length
      | _ => cs1
    if ip = [] ∧ fp = [] then none
    else
      let e : Int := match cs2 with
        | c :: rest =>
            if c == 'e' || c == 'E' then
              let esign : Int := match rest with | '-' :: _ => -1 | _ => 1
              let rest := match rest with | '-' :: t => t | '+' :: t => t | _ => rest
              let ed := rest.takeWhile Char.isDigit
              if ed = [] then 0 else esign * (digitsToNat ed : Int)
            else 0
        | [] => 0
      let m : Int := (digitsToNat (ip ++ fp) : Int)
      some (.fin (if neg then -m else m) (e - (fp.length : Int)))

/-! ## jalaali-js arithmetic (bundled by moment-jalaali)

Translated from jalaali-js; its `div`/`mod` are `~~(a/b)` truncation, i.e.
`Int.tdiv`/`Int.tmod`. -/

def jalaaliBreaks : List Int :=
  [-61, 9, 38, 199, 426, 686, 756, 818, 1111, 1181, 1210, 1635,
   2060, 2097, 2192, 2262, 2324, 2394, 2456, 3178]

/-- The accumulation loop of `jalCal`: returns `(leapJ, jp, jump)` at the
break where `jy < breaks[i]` stops the loop. -/
def jalCalLoop (jy : Int) : Int → Int → List Int → (Int × Int × Int)
  | jp, leapJ, [] => (leapJ, jp, 0)
  | jp, leapJ, b :: bs =>
      let jump := b - jp
      if jy < b then (leapJ, jp, jump)
      else jalCalLoop jy b
        (leapJ + Int.tdiv jump 33 * 8 + Int.tdiv (Int.tmod jump 33) 4) bs

/-- jalaali-js `jalCal(jy) = (leap, gy, march)`; `.error ()` models the
`throw new Error('Invalid Jalaali year')` for a year outside [-61, 3177]. -/
def jalCal (jy : Int) : Except Unit (Int × Int × Int) :=
  if jy < -61 ∨ 3178 ≤ jy then .error ()
  else
    let r := jalCalLoop jy (-61) (-14) jalaaliBreaks.tail
    let leapJ := r.1
    let jp := r.2.1
    let jump := r.2.2
    let n := jy - jp
    let leapJ := leapJ + Int.tdiv n 33 * 8 + Int.tdiv (Int.tmod n 33 + 3) 4
    let leapJ := if Int.tmod jump 33 = 4 ∧ jump - n = 4 then leapJ + 1 else leapJ
    let gy := jy + 621
    let leapG := Int.tdiv gy 4 - Int.tdiv ((Int.tdiv gy 100 + 1) * 3) 4 - 150
    let march := 20 + leapJ - leapG
    let n := if jump - n < 6 then n - jump + Int.tdiv (jump + 4) 33 * 33 else n
    let leap := Int.tmod (Int.tmod (n + 1) 33 - 1) 4
    let leap := if leap = -1 then 4 else leap
    .ok (leap, gy, march)

/-- jalaali-js `g2d(gy, gm, gd)`: Gregorian calendar date to day number. -/
def g2d (gy gm gd : Int) : Int :=
  let d := Int.tdiv ((gy + Int.tdiv (gm - 8) 6 + 100100) * 1461) 4 +
           Int.tdiv (153 * Int.tmod (gm + 9) 12 + 2) 5 + gd - 34840408
  d - Int.tdiv (Int.tdiv (gy + 100100 + Int.tdiv (gm - 8) 6) 100 * 3) 4 + 752

/-- jalaali-js `d2g(jdn)`: day number to Gregorian `(gy, gm, gd)`. -/
def d2g (jdn : Int) : Int × Int × Int :=
  let j := 4 * jdn + 139361631
  let j := j + Int.tdiv (Int.tdiv (4 * jdn + 183187720) 146097 * 3) 4 * 4 - 3908
  let i := Int.tdiv (Int.tmod j 1461) 4 * 5 + 308
  let gd := Int.tdiv (Int.tmod i 153) 5 + 1
  let gm := Int.tmod (Int.tdiv i 153) 12 + 1
  let gy := Int.tdiv j 1461 - 100100 + Int.tdiv (8 - gm) 6
  (gy, gm, gd)

/-- jalaali-js `j2d(jy, jm, jd)`, propagating the `jalCal` exception. -/
def j2d (jy jm jd : Int) : Except Unit Int :=
  match jalCal jy with
  | .error e => .error e
  | .ok r => .ok (g2d r.2.1 3 r.2.2 + (jm - 1) * 31 - Int.tdiv jm 7 * (jm - 7) + jd - 1)

/-- jalaali-js `toGregorian` composed to a calendar date. -/
def toGregorianDate (jy jm jd : Int) : Except Unit (Int × Int × Int) :=
  match j2d jy jm jd with
  | .error e => .error e
  | .ok jdn => .ok (d2g jdn)

/-- jalaali-js `jalaaliMonthLength`; months 7..12 of a non-leap year have 30
days except month 12 with 29; the month-12 case consults `jalCal`. -/
def jalaaliMonthLength (jy jm : Int) : Except Unit Int :=
  if jm ≤ 6 then .ok 31
  else if jm ≤ 11 then .ok 30
  else match jalCal jy with
    | .error e => .error e
    | .ok r => .ok (if r.1 = 0 then 30 else 29)

/-- moment-jalaali validity of a parsed Jalali date: month in 1..12, day in
1..month length (the month-length lookup can throw for a far-out year). -/
def jalaliDateValid (jy jm jd : Int) : Except Unit Bool :=
  if jm < 1 ∨ 12 < jm then .ok false
  else match jalaaliMonthLength jy jm with
    | .error e => .error e
    | .ok len => .ok (decide (1 ≤ jd ∧ jd ≤ len))

/-! ## moment-jalaali non-strict parsing of the eight layouts -/

/-- One token of a moment format string: a Jalali year/month/day numeric
token or a literal separator character. -/
inductive JTok where
  | year : JTok
  | month : JTok
  | day : JTok
  | lit : Char → JTok
deriving DecidableEq

/-- Width of the non-strict match regex of a numeric token: `jYYYY` matches
1..4 digits, `jMM`/`jM` and `jDD`/`jD` match 1..2. -/
def tokWidth (t : JTok) : Nat :=
  match t with
  | .year => 4
  | .month => 2
  | .day => 2
  | .lit _ => 0

/-- moment non-strict numeric token match on the remaining input: skip to
the first digit anywhere, then take greedily up to `w` consecutive digits;
`none` when the remainder holds no digit. -/
def parseNumTok (w : Nat) (cs : List Char) : Option (Nat × List Char) :=
  let after := cs.dropWhile (fun c => !c.isDigit)
  match after with
  | [] => none
  | _ =>
      let digs := (after.take w).takeWhile Char.isDigit
      some (digitsToNat digs, after.drop digs.length)

/-- The suffix after the first occurrence of `c`, `none` when `c` does not
occur (moment slices past a literal separator found anywhere, else leaves
the input untouched). -/
def afterFirstChar (c : Char) : List Char → Option (List Char)
  | [] => none
  | x :: xs => if x = c then some xs else afterFirstChar c xs

/-- moment's token loop: runs the format's tokens left to right over the
input, recording the year/month/day values found. -/
def momentScan : List JTok → List Char → (Option Nat × Option Nat × Option Nat) →
    (Option Nat × Option Nat × Option Nat)
  | [], _, st => st
  | .lit c :: toks, cs, st => momentScan toks ((afterFirstChar c cs).getD cs) st
  | .year :: toks, cs, (jy, jm, jd) =>
      match parseNumTok (tokWidth .year) cs with
      | none => momentScan toks cs (jy, jm, jd)
      | some (v, rest) => momentScan toks rest (some v, jm, jd)
  | .month :: toks, cs, (jy, jm, jd) =>
      match parseNumTok (tokWidth .month) cs with
      | none => momentScan toks cs (jy, jm, jd)
      | some (v, rest) => momentScan toks rest (jy, some v, jd)
  | .day :: toks, cs, (jy, jm, jd) =>
      match parseNumTok (tokWidth .day) cs with
      | none => momentScan toks cs (jy, jm, jd)
      | some (v, rest) => momentScan toks rest (jy, jm, some v)

/-- moment-jalaali parse of one format over the input: the Jalali
`(jy, jm, jd)` triple, `none` (an invalid moment) when a unit is missing. -/
def momentJParse (fmt : List JTok) (cs : List Char) : Option (Int × Int × Int) :=
  match momentScan fmt cs (none, none, none) with
  | (some jy, some jm, some jd) => some ((jy : Int), (jm : Int), (jd : Int))
  | _ => none

/-- The eight layouts of the `formats` array of `convertJalaliToGregorian`,
in declared order. Under non-strict matching the padded and unpadded
variants have the same token regexes, so they share token lists. -/
def jalaliFormats : List (List JTok) :=
  [[.month, .lit '/', .day, .lit '/', .year],
   [.day, .lit '/', .month, .lit '/', .year],
   [.year, .lit '/', .month, .lit '/', .day],
   [.year, .lit '-', .month, .lit '-', .day],
   [.year, .lit '/', .month, .lit '/', .day],
   [.year, .lit '-', .month, .lit '-', .day],
   [.month, .lit '/', .day, .lit '/', .year],
   [.day, .lit '/', .month, .lit '/', .year]]

/-- One iteration of the format loop up to `momentDate.toDate()`: parse with
the format, check Jalali validity, convert to Gregorian. `.ok none` means
this format yields no valid moment; `.error` propagates the jalaali-js
year-range exception. -/
def tryFormatStep (cs : List Char) (fmt : List JTok) :
    Except Unit (Option (Int × Int × Int)) :=
  match momentJParse fmt cs with
  | none => .ok none
  | some (jy, jm, jd) =>
      match jalaliDateValid jy jm jd with
      | .error e => .error e
      | .ok false => .ok none
      | .ok true =>
          match toGregorianDate jy jm jd with
          | .error e => .error e
          | .ok g => .ok (some g)

/-- The validity filter `year >= 1900 && year <= 2100` of the format loop,
on the Gregorian year of the parsed moment. -/
def yearInRange (g : Int × Int × Int) : Bool :=
  decide (1900 ≤ g.1 ∧ g.1 ≤ 2100)

/-- The `for (const format of formats)` loop: first format that parses to a
valid date with Gregorian year in [1900, 2100] wins; a parse failure or an
out-of-range year falls through to the next format. -/
def tryFormats (cs : List Char) : List (List JTok) → Except Unit (Option (Int × Int × Int))
  | [] => .ok none
  | fmt :: fmts =>
      match tryFormatStep cs fmt with
      | .error e => .error e
      | .ok none => tryFormats cs fmts
      | .ok (some g) => if yearInRange g then .ok (some g) else tryFormats cs fmts

/-! ## The date/time split and the loose time regex -/

/-- The LineTerminator set that the regex `.` (dot) excludes. -/
def lineTerminator (c : Char) : Bool :=
  let n := c.toNat
  n == 0xA || n == 0xD || n == 0x2028 || n == 0x2029

/-- Exactly `n` decimal digits from the front. -/
def exactDigits : Nat → List Char → Option (List Char × List Char)
  | 0, cs => some ([], cs)
  | _ + 1, [] => none
  | n + 1, c :: t =>
      if c.isDigit then
        match exactDigits n t with
        | some (ds, r) => some (c :: ds, r)
        | none => none
      else none

/-- The ways `\d{1,2}\/` can match a prefix, greedy alternative first:
`(consumed, rest)` pairs. -/
def matchDDSlash (cs : List Char) : List (List Char × List Char) :=
  (match cs with
   | a :: b :: '/' :: t =>
       if a.isDigit && b.isDigit then [([a, b, '/'], t)] else []
   | _ => []) ++
  (match cs with
   | a :: '/' :: t => if a.isDigit then [([a, '/'], t)] else []
   | _ => [])

/-- An anchored match of the group `(\d{1,2}\/\d{1,2}\/\d{4})`:
`(the matched date text, the rest)`. -/
def matchDatePart (cs : List Char) : Option (List Char × List Char) :=
  (matchDDSlash cs).findSome? (fun p1 =>
    (matchDDSlash p1.2).findSome? (fun p2 =>
      match exactDigits 4 p2.2 with
      | some (ds, r) => some (p1.1 ++ p2.1 ++ ds, r)
      | none => none))

/-- The match `cleanDate.match(/^(\d{1,2}\/\d{1,2}\/\d{4})\s+(.+)$/)` and
the split into `dateOnly` and the trimmed `timeString`. The input has been
trimmed already, so when the whitespace run after the date part is not
empty some non-whitespace follows; `(.+)$` then succeeds exactly when that
tail has no line terminator. -/
def splitDateTime (clean : String) : String × String :=
  match matchDatePart clean.data with
  | none => (clean, "")
  | some (datePart, rest) =>
      let wsRun := rest.takeWhile isJsWhitespace
      let tail := rest.drop wsRun.length
      if wsRun.length ≠ 0 ∧ tail ≠ [] ∧ tail.all (fun c => !lineTerminator c) then
        (String.mk datePart, jsTrim (String.mk tail))
      else (clean, "")

/-- The `\d{1,2}` alternatives of the time regex at the front of the input:
`(value, rest)`, greedy alternative first. -/
def timeDigits (cs : List Char) : List (Nat × List Char) :=
  match cs with
  | a :: b :: t =>
      if a.isDigit then
        if b.isDigit then [(digitsToNat [a, b], t), (digitsToNat [a], b :: t)]
        else [(digitsToNat [a], b :: t)]
      else []
  | [a] => if a.isDigit then [(digitsToNat [a], [])] else []
  | [] => []

/-- Consume an optional colon (`:?`; when the next token needs a digit,
declining a present colon can never help, so this is deterministic). -/
def optColon (cs : List Char) : List Char :=
  match cs with
  | ':' :: t => t
  | _ => cs

/-- An attempted match of
`(\d{1,2}):?\s*(\d{1,2}):?\s*(\d{1,2})(?:\.\d+)?\s*(AM|PM)?` (flag `i`)
anchored at the given position: `(hours, minutes, seconds, some true for
PM / some false for AM / none)`. -/
def matchTimeAt (cs : List Char) : Option (Nat × Nat × Nat × Option Bool) :=
  (timeDigits cs).findSome? (fun ph =>
    let r := (optColon ph.2).dropWhile isJsWhitespace
    (timeDigits r).findSome? (fun pm =>
      let r := (optColon pm.2).dropWhile isJsWhitespace
      (timeDigits r).findSome? (fun ps =>
        let r := match ps.2 with
          | '.' :: t =>
              if (match t with | d :: _ => d.isDigit | [] => false) then
                t.dropWhile Char.isDigit
              else ps.2
          | _ => ps.2
        let r := r.dropWhile isJsWhitespace
        let ampm : Option Bool := match r with
          | a :: b :: _ =>
              if (a == 'A' || a == 'a') && (b == 'M' || b == 'm') then some false
              else if (a == 'P' || a == 'p') && (b == 'M' || b == 'm') then some true
              else none
          | _ => none
        some (ph.1, pm.1, ps.1, ampm))))

/-- Leftmost search for the time regex (the unanchored `timeString.match`). -/
def searchTime : List Char → Option (Nat × Nat × Nat × Option Bool)
  | [] => none
  | c :: t =>
      match matchTimeAt (c :: t) with
      | some r => some r
      | none => searchTime t

/-- A wall-clock date and time, the state of the `jsDate` object after
`toDate()` and the optional `setHours`. -/
structure JsDateTime where
  gy : Int
  gm : Int
  gd : Int
  hh : Nat
  mi : Nat
  ss : Nat
deriving DecidableEq

/-- `jsDate.setHours(h, m, s, 0)` with overflow normalised into whole days
(JavaScript rolls extra hours/minutes/seconds over into the date). -/
def setHoursNormalized (gy gm gd : Int) (h m s : Nat) : JsDateTime :=
  let total := h * 3600 + m * 60 + s
  let tod := total % 86400
  let dt := if total / 86400 = 0 then (gy, gm, gd)
            else d2g (g2d gy gm gd + (total / 86400 : Nat))
  ⟨dt.1, dt.2.1, dt.2.2, tod / 3600, tod % 3600 / 60, tod % 60⟩

/-- The time-application block of `convertJalaliToGregorian`: `toDate()`
gives local midnight; when a time string was captured and the loose time
regex matches it, the 12h→24h adjustment is applied and the clock set. -/
def applyTime (g : Int × Int × Int) (timeStr : String) : JsDateTime :=
  if timeStr = "" then ⟨g.1, g.2.1, g.2.2, 0, 0, 0⟩
  else
    match searchTime timeStr.data with
    | none => ⟨g.1, g.2.1, g.2.2, 0, 0, 0⟩
    | some (h0, m, s, ampm) =>
        let h := match ampm with
          | some true => if h0 ≠ 12 then h0 + 12 else h0
          | some false => if h0 = 12 then 0 else h0
          | none => h0
        setHoursNormalized g.1 g.2.1 g.2.2 h m s

/-- The fixed month-abbreviation table of the output format. -/
def monthNames : List String :=
  ["Jan", "Feb", "Mar", "Apr", "May", "Jun",
   "Jul", "Aug", "Sep", "Oct", "Nov", "Dec"]

/-- `padStart(2, '0')`. -/
def pad2 (n : Nat) : String :=
  if n < 10 then "0" ++ toString n else toString n

/-- The output formatting of `convertJalaliToGregorian`:
`"{Mon} {D}, {YYYY}, {h}:{mm}:{ss} {AM|PM}"`. -/
def formatDateTime (dt : JsDateTime) : String :=
  let h12 := dt.hh % 12
  let h12 := if h12 = 0 then 12 else h12
  let ampm := if dt.hh ≥ 12 then "PM" else "AM"
  monthNames.getD (dt.gm - 1).toNat "" ++ " " ++ toString dt.gd ++ ", " ++
    toString dt.gy ++ ", " ++ toString h12 ++ ":" ++ pad2 dt.mi ++ ":" ++
    pad2 dt.ss ++ " " ++ ampm

/-- The body of the `try` block of `convertJalaliToGregorian`, after the
blank check, on the trimmed input. -/
def convertBody (clean : String) : Except Unit String :=
  if gregorianPatternTest clean then .ok clean
  else if jalaliPatternTest clean = false then .ok clean
  else
    match tryFormats (splitDateTime clean).1.data jalaliFormats with
    | .error e => .error e
    | .ok none => .ok clean
    | .ok (some g) => .ok (formatDateTime (applyTime g (splitDateTime clean).2))

/-- `convertJalaliToGregorian` of `src/mod.ts`: blank input gives the empty
string; the `catch` branch returns the original (untrimmed) input. -/
def convertJalaliToGregorian (jalaliDate : String) : String :=
  if jsTrim jalaliDate = "" then ""
  else
    match convertBody (jsTrim jalaliDate) with
    | .ok r => r
    | .error _ => jalaliDate

/-! ## Field coercion helpers of the formatters -/

/-- `{id, name}` pair used for every lookup-coded attribute. -/
structure IdNamePair where
  id : Int
  name : String
deriving DecidableEq

/-- The `parseNumeric` helper: `""`/`null`/`undefined` give 0, otherwise
`parseFloat` with `NaN` defaulted to 0. -/
def parseNumeric (val : JsVal) : JsNum :=
  if val = .str "" ∨ val = .undef then .fin 0 0
  else
    match jsParseFloat (jsValToString val) with
    | some n => n
    | none => .fin 0 0

/-- The `parseId` helper: `""`/`null`/`undefined` give 0, otherwise
`parseInt` with `NaN` defaulted to 0. -/
def parseId (val : JsVal) : Int :=
  if val = .str "" ∨ val = .undef then 0
  else
    match jsParseInt (jsValToString val) with
    | some n => n
    | none => 0

/-- JavaScript `s.split(",")`: split at every comma, empty pieces kept. -/
def splitOnComma : List Char → List (List Char)
  | [] => [[]]
  | c :: t =>
      if c == ',' then [] :: splitOnComma t
      else
        match splitOnComma t with
        | h :: r => (c :: h) :: r
        | [] => [[c]]

/-- The `parseStringArray` helper: falsy or empty gives `[]`; otherwise
split on commas, trim each item, drop empties, wrap each with a 1-based
sequential id. The `itemName` argument is unused in the source too. -/
def parseStringArray (val : JsVal) (_itemName : String) : List IdNamePair :=
  if jsTruthy val = false ∨ val = .str "" then []
  else
    let items := ((splitOnComma (jsValToString val).data).map
      (fun cs => jsTrim (String.mk cs))).filter (fun t => t ≠ "")
    items.mapIdx (fun i item => { id := (i : Int) + 1, name := item })

/-- Separator class of the split regex `/[\s,]+/`. -/
def isPlaqueSep (c : Char) : Bool :=
  isJsWhitespace c || c == ','

theorem length_dropWhile_le_self {α : Type} (p : α → Bool) :
    ∀ l : List α, (l.dropWhile p).length ≤ l.length := by
  intro l
  induction l with
  | nil => simp
  | cons a t ih =>
      by_cases h : p a
      · simp only [List.dropWhile_cons, h, if_true, List.length_cons]
        omega
      · simp [List.dropWhile_cons, h]

/-- JavaScript `s.split(/[\s,]+/)`: pieces between maximal separator runs,
with an empty leading/trailing piece when the string starts/ends with a
separator. -/
def splitOnSepRuns : List Char → List (List Char)
  | [] => [[]]
  | c :: t =>
      if isPlaqueSep c then [] :: splitOnSepRuns (t.dropWhile isPlaqueSep)
      else
        match splitOnSepRuns t with
        | h :: r => (c :: h) :: r
        | [] => [[c]]
termination_by cs => cs.length
decreasing_by
  · exact Nat.lt_succ_of_le (length_dropWhile_le_self _ _)
  · exact Nat.lt_succ_self _

/-- The `parsePlaqueNo` helper: falsy or empty gives `[]`; a value that is
already an array passes through (unreachable for CSV cells, so not in the
model); otherwise split on whitespace/comma runs and drop blank items. -/
def parsePlaqueNo (val : JsVal) : List String :=
  if jsTruthy val = false ∨ val = .str "" then []
  else ((splitOnSepRuns (jsValToString val).data).map String.mk).filter
    (fun item => jsTrim item ≠ "")

/-- The `parseDamageSections` helper of `formatVehicle`; its body is the
comma-split/trim/filter/wrap of `parseStringArray` without the unused name
argument. -/
def parseDamageSections (val : JsVal) : List IdNamePair :=
  if jsTruthy val = false ∨ val = .str "" then []
  else
    let sections := ((splitOnComma (jsValToString val).data).map
      (fun cs => jsTrim (String.mk cs))).filter (fun t => t ≠ "")
    sections.mapIdx (fun i sec => { id := (i : Int) + 1, name := sec })

/-- The passthrough `a.attachments ? (Array.isArray(a.attachments) ?
a.attachments : []) : []`: every `JsVal` a CSV cell can hold is a
non-array, so the result is always `[]`. -/
def passthroughArray (_val : JsVal) : List JsVal :=
  []

/-- `a.hasWitness === "true" || a.hasWitness === true`. -/
def hasWitnessOf (val : JsVal) : Bool :=
  val == .str "true" || val == .bool true

/-! ## Raw rows (one per CSV record, the columns each formatter reads) -/

structure RawAccident where
  road_id : JsVal := .undef
  road_name : JsVal := .undef
  seri : JsVal := .undef
  type_id : JsVal := .undef
  type_name : JsVal := .undef
  officer : JsVal := .undef
  position_id : JsVal := .undef
  position_name : JsVal := .undef
  province_id : JsVal := .undef
  province_name : JsVal := .undef
  serialNO : JsVal := .undef
  township_id : JsVal := .undef
  township_name : JsVal := .undef
  deadCount : JsVal := .undef
  xPosition : JsVal := .undef
  yPosition : JsVal := .undef
  areaUsages : JsVal := .undef
  hasWitness : JsVal := .undef
  newsNumber : JsVal := .undef
  rulingType_id : JsVal := .undef
  rulingType_name : JsVal := .undef
  airStatuses : JsVal := .undef
  attachments : JsVal := .undef
  lightStatus_id : JsVal := .undef
  lightStatus_name : JsVal := .undef
  roadDefects : JsVal := .undef
  base64Images : JsVal := .undef
  AMEL_humanReasons : JsVal := .undef
  injuredCount : JsVal := .undef
  collisionType_id : JsVal := .undef
  collisionType_name : JsVal := .undef
  roadSituation_id : JsVal := .undef
  roadSituation_name : JsVal := .undef
  roadRepairType_id : JsVal := .undef
  roadRepairType_name : JsVal := .undef
  shoulderStatus_id : JsVal := .undef
  shoulderStatus_name : JsVal := .undef
  vehicleReasons : JsVal := .undef
  equipmentDamages : JsVal := .undef
  roadSurfaceConditions : JsVal := .undef
  accidentDate : JsVal := .undef
  completionDate : JsVal := .undef
  accident_id : JsVal := .undef
deriving DecidableEq

structure RawVehicle where
  color_id : JsVal := .undef
  color_name : JsVal := .undef
  driver_sex_id : JsVal := .undef
  driver_sex_name : JsVal := .undef
  driver_lastName : JsVal := .undef
  driver_firstName : JsVal := .undef
  driver_injuryType_id : JsVal := .undef
  driver_injuryType_name : JsVal := .undef
  driver_licenceType_id : JsVal := .undef
  driver_licenceType_name : JsVal := .undef
  driver_totalReason_id : JsVal := .undef
  driver_totalReason_name : JsVal := .undef
  driver_nationalCode : JsVal := .undef
  driver_licenceNumber : JsVal := .undef
  system_id : JsVal := .undef
  system_name : JsVal := .undef
  plaqueNo : JsVal := .undef
  plaqueType_id : JsVal := .undef
  plaqueType_name : JsVal := .undef
  systemType_id : JsVal := .undef
  systemType_name : JsVal := .undef
  faultStatus_id : JsVal := .undef
  faultStatus_name : JsVal := .undef
  insuranceCo_id : JsVal := .undef
  insuranceCo_name : JsVal := .undef
  insuranceNo : JsVal := .undef
  plaqueUsage_id : JsVal := .undef
  plaqueUsage_name : JsVal := .undef
  printNumber : JsVal := .undef
  plaqueSerial : JsVal := .undef
  insuranceDate : JsVal := .undef
  bodyInsuranceCo_id : JsVal := .undef
  bodyInsuranceCo_name : JsVal := .undef
  bodyInsuranceNo : JsVal := .undef
  motionDirection_id : JsVal := .undef
  motionDirection_name : JsVal := .undef
  bodyInsuranceDate : JsVal := .undef
  maxDamageSections : JsVal := .undef
  damageSectionOther : JsVal := .undef
  insuranceWarrantyLimit : JsVal := .undef
  accident_id : JsVal := .undef
  vehicle_id : JsVal := .undef
deriving DecidableEq

structure RawPassenger where
  sex_id : JsVal := .undef
  sex_name : JsVal := .undef
  lastName : JsVal := .undef
  firstName : JsVal := .undef
  injuryType_id : JsVal := .undef
  injuryType_name : JsVal := .undef
  faultStatus_id : JsVal := .undef
  faultStatus_name : JsVal := .undef
  totalReason_id : JsVal := .undef
  totalReason_name : JsVal := .undef
  nationalCode : JsVal := .undef
  passenger_id : JsVal := .undef
deriving DecidableEq

structure RawPedestrian where
  sex_id : JsVal := .undef
  sex_name : JsVal := .undef
  lastName : JsVal := .undef
  firstName : JsVal := .undef
  injuryType_id : JsVal := .undef
  injuryType_name : JsVal := .undef
  faultStatus_id : JsVal := .undef
  faultStatus_name : JsVal := .undef
  totalReason_id : JsVal := .undef
  totalReason_name : JsVal := .undef
  nationalCode : JsVal := .undef
  pedestrian_id : JsVal := .undef
deriving DecidableEq

/-! ## Formatted (nested, typed) entities -/

structure Driver where
  sex : IdNamePair
  lastName : String
  firstName : String
  injuryType : IdNamePair
  licenceType : IdNamePair
  totalReason : IdNamePair
  nationalCode : String
  licenceNumber : String
deriving DecidableEq

structure Passenger where
  sex : IdNamePair
  lastName : String
  firstName : String
  injuryType : IdNamePair
  faultStatus : IdNamePair
  totalReason : IdNamePair
  nationalCode : String
deriving DecidableEq

structure Pedestrian where
  sex : IdNamePair
  lastName : String
  firstName : String
  injuryType : IdNamePair
  faultStatus : IdNamePair
  totalReason : IdNamePair
  nationalCode : String
deriving DecidableEq

/-- A formatted vehicle. `accident_id`/`vehicle_id` hold the raw join-key
values carried into the formatted object (`none` after the merge loop's
`delete`); `passengerDTOS` is absent (`none`) until the merge loop assigns
it. -/
structure Vehicle where
  color : IdNamePair
  driver : Driver
  system : IdNamePair
  plaqueNo : List String
  plaqueType : IdNamePair
  systemType : IdNamePair
  faultStatus : IdNamePair
  insuranceCo : IdNamePair
  insuranceNo : String
  plaqueUsage : IdNamePair
  printNumber : String
  plaqueSerial : List String
  insuranceDate : String
  bodyInsuranceCo : IdNamePair
  bodyInsuranceNo : String
  motionDirection : IdNamePair
  bodyInsuranceDate : String
  maxDamageSections : List IdNamePair
  damageSectionOther : String
  insuranceWarrantyLimit : JsNum
  accident_id : Option JsVal
  vehicle_id : Option JsVal
  passengerDTOS : Option (List Passenger) := none
deriving DecidableEq

/-- A formatted accident. `accident_id` is `none` after the merge loop's
`delete`; `vehicleDTOS`/`pedestrianDTOS` are absent (`none`) until the
merge loop assigns them. -/
structure Accident where
  road : IdNamePair
  seri : String
  type : IdNamePair
  officer : String
  position : IdNamePair
  province : IdNamePair
  serialNO : JsNum
  township : IdNamePair
  deadCount : JsNum
  xPosition : JsNum
  yPosition : JsNum
  areaUsages : List IdNamePair
  hasWitness : Bool
  newsNumber : String
  rulingType : IdNamePair
  airStatuses : List IdNamePair
  attachments : List JsVal
  lightStatus : IdNamePair
  roadDefects : List IdNamePair
  base64Images : List JsVal
  humanReasons : List IdNamePair
  injuredCount : JsNum
  collisionType : IdNamePair
  roadSituation : IdNamePair
  roadRepairType : IdNamePair
  shoulderStatus : IdNamePair
  vehicleReasons : List IdNamePair
  equipmentDamages : List IdNamePair
  roadSurfaceConditions : List IdNamePair
  accidentDate : String
  completionDate : String
  accident_id : Option JsVal
  vehicleDTOS : Option (List Vehicle) := none
  pedestrianDTOS : Option (List Pedestrian) := none
deriving DecidableEq

/-- `formatAccident` of `src/mod.ts`. -/
def formatAccident (a : RawAccident) : Accident :=
  { road := { id := parseId a.road_id, name := orString a.road_name "" }
    seri := orString a.seri ""
    type := { id := parseId a.type_id, name := orString a.type_name "" }
    officer := orString a.officer ""
    position := { id := parseId a.position_id, name := orString a.position_name "" }
    province := { id := parseId a.province_id, name := orString a.province_name "" }
    serialNO := parseNumeric a.serialNO
    township := { id := parseId a.township_id, name := orString a.township_name "تهران" }
    deadCount := parseNumeric a.deadCount
    xPosition := parseNumeric a.xPosition
    yPosition := parseNumeric a.yPosition
    areaUsages := parseStringArray a.areaUsages "area"
    hasWitness := hasWitnessOf a.hasWitness
    newsNumber := orString a.newsNumber ""
    rulingType := { id := parseId a.rulingType_id, name := orString a.rulingType_name "" }
    airStatuses := parseStringArray a.airStatuses "air"
    attachments := passthroughArray a.attachments
    lightStatus := { id := parseId a.lightStatus_id, name := orString a.lightStatus_name "" }
    roadDefects := parseStringArray a.roadDefects "defect"
    base64Images := passthroughArray a.base64Images
    humanReasons := parseStringArray a.AMEL_humanReasons "reason"
    injuredCount := parseNumeric a.injuredCount
    collisionType := { id := parseId a.collisionType_id, name := orString a.collisionType_name "" }
    roadSituation := { id := parseId a.roadSituation_id, name := orString a.roadSituation_name "" }
    roadRepairType := { id := parseId a.roadRepairType_id, name := orString a.roadRepairType_name "" }
    shoulderStatus := { id := parseId a.shoulderStatus_id, name := orString a.shoulderStatus_name "" }
    vehicleReasons := parseStringArray a.vehicleReasons "vehicle"
    equipmentDamages := parseStringArray a.equipmentDamages "damage"
    roadSurfaceConditions := parseStringArray a.roadSurfaceConditions "surface"
    accidentDate := convertJalaliToGregorian (orString a.accidentDate "")
    completionDate := convertJalaliToGregorian (orString a.completionDate "")
    accident_id := some a.accident_id }

/-- `formatVehicle` of `src/mod.ts`. -/
def formatVehicle (v : RawVehicle) : Vehicle :=
  { color := { id := parseId v.color_id, name := orString v.color_name "" }
    driver :=
      { sex := { id := parseId v.driver_sex_id, name := orString v.driver_sex_name "" }
        lastName := orString v.driver_lastName ""
        firstName := orString v.driver_firstName ""
        injuryType := { id := parseId v.driver_injuryType_id, name := orString v.driver_injuryType_name "" }
        licenceType := { id := parseId v.driver_licenceType_id, name := orString v.driver_licenceType_name "" }
        totalReason := { id := parseId v.driver_totalReason_id, name := orString v.driver_totalReason_name "" }
        nationalCode := orString v.driver_nationalCode ""
        licenceNumber := orString v.driver_licenceNumber "" }
    system := { id := parseId v.system_id, name := orString v.system_name "" }
    plaqueNo := parsePlaqueNo v.plaqueNo
    plaqueType := { id := parseId v.plaqueType_id, name := orString v.plaqueType_name "" }
    systemType := { id := parseId v.systemType_id, name := orString v.systemType_name "" }
    faultStatus := { id := parseId v.faultStatus_id, name := orString v.faultStatus_name "" }
    insuranceCo := { id := parseId v.insuranceCo_id, name := orString v.insuranceCo_name "" }
    insuranceNo := orString v.insuranceNo ""
    plaqueUsage := { id := parseId v.plaqueUsage_id, name := orString v.plaqueUsage_name "" }
    printNumber := orString v.printNumber ""
    plaqueSerial := parsePlaqueNo v.plaqueSerial
    insuranceDate := convertJalaliToGregorian (orString v.insuranceDate "")
    bodyInsuranceCo := { id := parseId v.bodyInsuranceCo_id, name := orString v.bodyInsuranceCo_name "" }
    bodyInsuranceNo := orString v.bodyInsuranceNo ""
    motionDirection := { id := parseId v.motionDirection_id, name := orString v.motionDirection_name "" }
    bodyInsuranceDate := convertJalaliToGregorian (orString v.bodyInsuranceDate "")
    maxDamageSections := parseDamageSections v.maxDamageSections
    damageSectionOther := orString v.damageSectionOther ""
    insuranceWarrantyLimit := parseNumeric v.insuranceWarrantyLimit
    accident_id := some v.accident_id
    vehicle_id := some v.vehicle_id }

/-- `formatPassenger` of `src/mod.ts`. -/
def formatPassenger (p : RawPassenger) : Passenger :=
  { sex := { id := parseId p.sex_id, name := orString p.sex_name "" }
    lastName := orString p.lastName ""
    firstName := orString p.firstName ""
    injuryType := { id := parseId p.injuryType_id, name := orString p.injuryType_name "" }
    faultStatus := { id := parseId p.faultStatus_id, name := orString p.faultStatus_name "" }
    totalReason := { id := parseId p.totalReason_id, name := orString p.totalReason_name "" }
    nationalCode := orString p.nationalCode "" }

/-- `formatPedestrian` of `src/mod.ts`. -/
def formatPedestrian (p : RawPedestrian) : Pedestrian :=
  { sex := { id := parseId p.sex_id, name := orString p.sex_name "" }
    lastName := orString p.lastName ""
    firstName := orString p.firstName ""
    injuryType := { id := parseId p.injuryType_id, name := orString p.injuryType_name "" }
    faultStatus := { id := parseId p.faultStatus_id, name := orString p.faultStatus_name "" }
    totalReason := { id := parseId p.totalReason_id, name := orString p.totalReason_name "" }
    nationalCode := orString p.nationalCode "" }

/-! ## Lookup indices (lines 448-473 of `src/mod.ts`)

A JavaScript `Map<string, T[]>` observed only through `get`/`has`/`set` is
modelled extensionally as a function `String → List T`; the
`if (!has) set([]); get.push(x)` step appends under the key. -/

/-- The body of one lookup-map loop iteration: trim the join key, skip the
row when it is blank, else append the formatted entity under the key. -/
def buildIndexStep {ρ α : Type} (keyOf : ρ → String) (fm : ρ → α)
    (m : String → List α) (r : ρ) : String → List α :=
  let key := keyOf r
  if key = "" then m
  else fun k => if k = key then m k ++ [fm r] else m k

/-- The common shape of the three lookup-map loops. -/
def buildIndex {ρ α : Type} (keyOf : ρ → String) (fm : ρ → α)
    (rows : List ρ) : String → List α :=
  rows.foldl (buildIndexStep keyOf fm) (fun _ => [])

/-- `vehiclesByAccidentId`: keyed by `String(v.vehicle_id || "").trim()`
(the `vehicle_id` column holds the parent accident's id). -/
def vehiclesByAccidentId (rows : List RawVehicle) : String → List Vehicle :=
  buildIndex (fun v => jsTrim (jsStringOrEmpty v.vehicle_id)) formatVehicle rows

/-- `passengersByAccidentId`: keyed by `String(p.passenger_id || "").trim()`. -/
def passengersByAccidentId (rows : List RawPassenger) : String → List Passenger :=
  buildIndex (fun p => jsTrim (jsStringOrEmpty p.passenger_id)) formatPassenger rows

/-- `pedestriansByAccidentId`: keyed by `String(p.pedestrian_id || "").trim()`. -/
def pedestriansByAccidentId (rows : List RawPedestrian) : String → List Pedestrian :=
  buildIndex (fun p => jsTrim (jsStringOrEmpty p.pedestrian_id)) formatPedestrian rows

/-! ## The streaming merge loop (lines 503-538 of `src/mod.ts`) -/

/-- `String(accident.accident_id || "")` read through the possibly deleted
property. -/
def jsOptValToKey (o : Option JsVal) : String :=
  match o with
  | none => ""
  | some v => jsStringOrEmpty v

/-- One pass of the vehicle loop body over one vehicle: assign
`passengerDTOS` and delete the two join-key fields. -/
def stripJoinAttach (ps : List Passenger) (v : Vehicle) : Vehicle :=
  { v with passengerDTOS := some ps, accident_id := none, vehicle_id := none }

/-- The `for (let i = 0; ...)` passenger-distribution loop: the whole
matched passenger list goes to index 0, every later vehicle gets `[]`, and
all vehicles lose their join keys. -/
def distributePassengers (vehicles : List Vehicle) (ps : List Passenger) :
    List Vehicle :=
  match vehicles with
  | [] => []
  | v0 :: rest => stripJoinAttach ps v0 :: rest.map (stripJoinAttach [])

/-- The trimmed `accidentId` of one raw accident row, read through the
formatted object as the loop does. -/
def accidentKeyOf (raw : RawAccident) : String :=
  jsTrim (jsOptValToKey (formatAccident raw).accident_id)

/-- The `accidentVehicles` array after the passenger-distribution loop ran
over it, as a function of the current vehicle index. -/
def mergeVehicles (pas : String → List Passenger) (vidx : String → List Vehicle)
    (raw : RawAccident) : List Vehicle :=
  distributePassengers (vidx (accidentKeyOf raw)) (pas (accidentKeyOf raw))

/-- The accident object the loop body serializes for one row: the formatted
accident with the mutated vehicle list attached, the pedestrian list looked
up, and its own `accident_id` deleted. -/
def mergeEmit (pas : String → List Passenger) (ped : String → List Pedestrian)
    (vidx : String → List Vehicle) (raw : RawAccident) : Accident :=
  { formatAccident raw with
    vehicleDTOS := some (mergeVehicles pas vidx raw),
    pedestrianDTOS := some (ped (accidentKeyOf raw)),
    accident_id := none }

/-- The vehicle index after the loop body: the stored array under the
accident's key was aliased by `get`, so its elements now hold the in-place
mutations (for an absent key, `get` returned a fresh `[]` and nothing in
the index changes — which the pointwise update also models, since
`distributePassengers [] ps = []`). -/
def mergeIdx (pas : String → List Passenger) (vidx : String → List Vehicle)
    (raw : RawAccident) : String → List Vehicle :=
  fun k => if k = accidentKeyOf raw then mergeVehicles pas vidx raw else vidx k

/-- One iteration of `for await (const rawAccident of accidentStream)`.
State: the vehicle index (whose stored vehicle objects the loop mutates in
place through the array aliased by `get`) and the list of emitted accident
objects, in emission order. The passenger and pedestrian indices are never
written, so they are plain parameters. -/
def mergeStep (pas : String → List Passenger) (ped : String → List Pedestrian)
    (st : (String → List Vehicle) × List Accident) (raw : RawAccident) :
    (String → List Vehicle) × List Accident :=
  (mergeIdx pas st.1 raw, st.2 ++ [mergeEmit pas ped st.1 raw])

/-- The full merge pass: final vehicle-index state and emitted accidents. -/
def runMergeState (vehRows : List RawVehicle) (pasRows : List RawPassenger)
    (pedRows : List RawPedestrian) (accRows : List RawAccident) :
    (String → List Vehicle) × List Accident :=
  accRows.foldl
    (mergeStep (passengersByAccidentId pasRows) (pedestriansByAccidentId pedRows))
    (vehiclesByAccidentId vehRows, [])

/-- The emitted accident objects of the run, in emission order. -/
def runMerge (vehRows : List RawVehicle) (pasRows : List RawPassenger)
    (pedRows : List RawPedestrian) (accRows : List RawAccident) : List Accident :=
  (runMergeState vehRows pasRows pedRows accRows).2

/-! ## JSON serialization (`JSON.stringify` over the emitted shapes)

The element text itself is irrelevant to every claim (the framing claim is
content-agnostic); the encoder below still follows `JSON.stringify`:
insertion-order keys, deleted/undefined properties omitted, control
characters escaped. Numbers print from the exact scaled decimal, which
matches the double's shortest form on the magnitudes CSV data holds. -/

def hexDigitOf (n : Nat) : Char :=
  if n < 10 then Char.ofNat ('0'.toNat + n) else Char.ofNat ('a'.toNat + n - 10)

def jsonEscapeChar (c : Char) : String :=
  if c = '"' then "\\\""
  else if c = '\\' then "\\\\"
  else if c = Char.ofNat 0x8 then "\\b"
  else if c = Char.ofNat 0x9 then "\\t"
  else if c = Char.ofNat 0xA then "\\n"
  else if c = Char.ofNat 0xC then "\\f"
  else if c = Char.ofNat 0xD then "\\r"
  else if c.toNat < 0x20 then
    "\\u00" ++ String.mk [hexDigitOf (c.toNat / 16), hexDigitOf (c.toNat % 16)]
  else String.mk [c]

def jsonQuote (s : String) : String :=
  "\"" ++ String.join (s.data.map jsonEscapeChar) ++ "\""

def padLeftZeros (k : Nat) (s : String) : String :=
  String.mk (List.replicate (k - s.length) '0') ++ s

def trimTrailingZeros (s : String) : String :=
  String.mk ((s.data.reverse.dropWhile (fun c => c == '0')).reverse)

/-- Decimal rendering of a `JsNum` (`JSON.stringify` turns the infinities
into `null`). -/
def jsonNumRepr (n : JsNum) : String :=
  match n with
  | .inf _ => "null"
  | .fin m p =>
      if m = 0 then "0"
      else
        let sign := if m < 0 then "-" else ""
        if 0 ≤ p then sign ++ toString m.natAbs ++ String.mk (List.replicate p.toNat '0')
        else
          let k := (-p).toNat
          let ip := m.natAbs / 10 ^ k
          let frac := trimTrailingZeros (padLeftZeros k (toString (m.natAbs % 10 ^ k)))
          if frac = "" then sign ++ toString ip
          else sign ++ toString ip ++ "." ++ frac

def jsonIdName (x : IdNamePair) : String :=
  "\x7b\"id\":" ++ toString x.id ++ ",\"name\":" ++ jsonQuote x.name ++ "\x7d"

def jsonArr (xs : List String) : String :=
  "[" ++ String.intercalate "," xs ++ "]"

def jsonJsVal (v : JsVal) : String :=
  match v with
  | .undef => "null"
  | .str s => jsonQuote s
  | .bool true => "true"
  | .bool false => "false"

/-- A property that may have been deleted (`none`) or hold `undefined`
(omitted by `JSON.stringify`). -/
def jsonOptProp (name : String) (o : Option JsVal) : Option String :=
  match o with
  | none => none
  | some .undef => none
  | some v => some (jsonQuote name ++ ":" ++ jsonJsVal v)

def jsonObj (fields : List (Option String)) : String :=
  "\x7b" ++ String.intercalate "," (fields.filterMap id) ++ "\x7d"

def jsonProp (name : String) (value : String) : Option String :=
  some (jsonQuote name ++ ":" ++ value)

def jsonDriver (d : Driver) : String :=
  jsonObj
    [jsonProp "sex" (jsonIdName d.sex),
     jsonProp "lastName" (jsonQuote d.lastName),
     jsonProp "firstName" (jsonQuote d.firstName),
     jsonProp "injuryType" (jsonIdName d.injuryType),
     jsonProp "licenceType" (jsonIdName d.licenceType),
     jsonProp "totalReason" (jsonIdName d.totalReason),
     jsonProp "nationalCode" (jsonQuote d.nationalCode),
     jsonProp "licenceNumber" (jsonQuote d.licenceNumber)]

def jsonPassenger (p : Passenger) : String :=
  jsonObj
    [jsonProp "sex" (jsonIdName p.sex),
     jsonProp "lastName" (jsonQuote p.lastName),
     jsonProp "firstName" (jsonQuote p.firstName),
     jsonProp "injuryType" (jsonIdName p.injuryType),
     jsonProp "faultStatus" (jsonIdName p.faultStatus),
     jsonProp "totalReason" (jsonIdName p.totalReason),
     jsonProp "nationalCode" (jsonQuote p.nationalCode)]

def jsonPedestrian (p : Pedestrian) : String :=
  jsonObj
    [jsonProp "sex" (jsonIdName p.sex),
     jsonProp "lastName" (jsonQuote p.lastName),
     jsonProp "firstName" (jsonQuote p.firstName),
     jsonProp "injuryType" (jsonIdName p.injuryType),
     jsonProp "faultStatus" (jsonIdName p.faultStatus),
     jsonProp "totalReason" (jsonIdName p.totalReason),
     jsonProp "nationalCode" (jsonQuote p.nationalCode)]

/-- A vehicle object in property-insertion order: the literal's fields, the
two join keys when still present, then `passengerDTOS` when assigned. -/
def jsonVehicle (v : Vehicle) : String :=
  jsonObj
    [jsonProp "color" (jsonIdName v.color),
     jsonProp "driver" (jsonDriver v.driver),
     jsonProp "system" (jsonIdName v.system),
     jsonProp "plaqueNo" (jsonArr (v.plaqueNo.map jsonQuote)),
     jsonProp "plaqueType" (jsonIdName v.plaqueType),
     jsonProp "systemType" (jsonIdName v.systemType),
     jsonProp "faultStatus" (jsonIdName v.faultStatus),
     jsonProp "insuranceCo" (jsonIdName v.insuranceCo),
     jsonProp "insuranceNo" (jsonQuote v.insuranceNo),
     jsonProp "plaqueUsage" (jsonIdName v.plaqueUsage),
     jsonProp "printNumber" (jsonQuote v.printNumber),
     jsonProp "plaqueSerial" (jsonArr (v.plaqueSerial.map jsonQuote)),
     jsonProp "insuranceDate" (jsonQuote v.insuranceDate),
     jsonProp "bodyInsuranceCo" (jsonIdName v.bodyInsuranceCo),
     jsonProp "bodyInsuranceNo" (jsonQuote v.bodyInsuranceNo),
     jsonProp "motionDirection" (jsonIdName v.motionDirection),
     jsonProp "bodyInsuranceDate" (jsonQuote v.bodyInsuranceDate),
     jsonProp "maxDamageSections" (jsonArr (v.maxDamageSections.map jsonIdName)),
     jsonProp "damageSectionOther" (jsonQuote v.damageSectionOther),
     jsonProp "insuranceWarrantyLimit" (jsonNumRepr v.insuranceWarrantyLimit),
     jsonOptProp "accident_id" v.accident_id,
     jsonOptProp "vehicle_id" v.vehicle_id,
     (v.passengerDTOS.map (fun ps =>
        jsonQuote "passengerDTOS" ++ ":" ++ jsonArr (ps.map jsonPassenger)))]

/-- An accident object in property-insertion order: the literal's fields,
`accident_id` when still present, then `vehicleDTOS` and `pedestrianDTOS`
when assigned. -/
def jsonAccident (a : Accident) : String :=
  jsonObj
    [jsonProp "road" (jsonIdName a.road),
     jsonProp "seri" (jsonQuote a.seri),
     jsonProp "type" (jsonIdName a.type),
     jsonProp "officer" (jsonQuote a.officer),
     jsonProp "position" (jsonIdName a.position),
     jsonProp "province" (jsonIdName a.province),
     jsonProp "serialNO" (jsonNumRepr a.serialNO),
     jsonProp "township" (jsonIdName a.township),
     jsonProp "deadCount" (jsonNumRepr a.deadCount),
     jsonProp "xPosition" (jsonNumRepr a.xPosition),
     jsonProp "yPosition" (jsonNumRepr a.yPosition),
     jsonProp "areaUsages" (jsonArr (a.areaUsages.map jsonIdName)),
     jsonProp "hasWitness" (if a.hasWitness then "true" else "false"),
     jsonProp "newsNumber" (jsonQuote a.newsNumber),
     jsonProp "rulingType" (jsonIdName a.rulingType),
     jsonProp "airStatuses" (jsonArr (a.airStatuses.map jsonIdName)),
     jsonProp "attachments" (jsonArr (a.attachments.map jsonJsVal)),
     jsonProp "lightStatus" (jsonIdName a.lightStatus),
     jsonProp "roadDefects" (jsonArr (a.roadDefects.map jsonIdName)),
     jsonProp "base64Images" (jsonArr (a.base64Images.map jsonJsVal)),
     jsonProp "humanReasons" (jsonArr (a.humanReasons.map jsonIdName)),
     jsonProp "injuredCount" (jsonNumRepr a.injuredCount),
     jsonProp "collisionType" (jsonIdName a.collisionType),
     jsonProp "roadSituation" (jsonIdName a.roadSituation),
     jsonProp "roadRepairType" (jsonIdName a.roadRepairType),
     jsonProp "shoulderStatus" (jsonIdName a.shoulderStatus),
     jsonProp "vehicleReasons" (jsonArr (a.vehicleReasons.map jsonIdName)),
     jsonProp "equipmentDamages" (jsonArr (a.equipmentDamages.map jsonIdName)),
     jsonProp "roadSurfaceConditions" (jsonArr (a.roadSurfaceConditions.map jsonIdName)),
     jsonProp "accidentDate" (jsonQuote a.accidentDate),
     jsonProp "completionDate" (jsonQuote a.completionDate),
     jsonOptProp "accident_id" a.accident_id,
     (a.vehicleDTOS.map (fun vs =>
        jsonQuote "vehicleDTOS" ++ ":" ++ jsonArr (vs.map jsonVehicle))),
     (a.pedestrianDTOS.map (fun ps =>
        jsonQuote "pedestrianDTOS" ++ ":" ++ jsonArr (ps.map jsonPedestrian)))]

/-- The envelope `JSON.stringify({ accident_json: JSON.stringify(accident) },
null, 4)`: the double-encoded element text written for one accident. -/
def serializeEmitted (a : Accident) : String :=
  "\x7b\n    " ++ jsonQuote "accident_json" ++ ": " ++
    jsonQuote (jsonAccident a) ++ "\n\x7d"

/-! ## The JSON-array stream writer (lines 488-540 of `src/mod.ts`) -/

/-- The per-element writes of the loop: a `",\n"` separator before every
element except the first, then the element text. -/
def writeLoop : Bool → List String → String
  | _, [] => ""
  | isFirst, e :: rest => (if isFirst then "" else ",\n") ++ e ++ writeLoop false rest

/-- Everything `main` writes to `merged.json`: `"[\n"` once, the separated
elements, then `"\n]\n"`. -/
def mainOutput (vehRows : List RawVehicle) (pasRows : List RawPassenger)
    (pedRows : List RawPedestrian) (accRows : List RawAccident) : String :=
  "[\n" ++ writeLoop true ((runMerge vehRows pasRows pedRows accRows).map serializeEmitted)
    ++ "\n]\n"

/-- Spec-side framing law (written from the spec's words, for the framing
claim): the elements joined by `",\n"`. -/
def specJoinElements : List String → String
  | [] => ""
  | [x] => x
  | x :: y :: rest => x ++ ",\n" ++ specJoinElements (y :: rest)

/-! ## Lemmas about the lookup indices -/

theorem buildIndexStep_apply {ρ α : Type} (keyOf : ρ → String) (fm : ρ → α)
    (m : String → List α) (r : ρ) (K : String) :
    buildIndexStep keyOf fm m r K =
      if keyOf r = K ∧ K ≠ "" then m K ++ [fm r] else m K := by
  unfold buildIndexStep
  by_cases hk : keyOf r = ""
  · rw [if_pos hk]
    rw [if_neg]
    rintro ⟨h1, h2⟩
    exact h2 (h1 ▸ hk)
  · rw [if_neg hk]
    by_cases hKr : K = keyOf r
    · rw [if_pos hKr, if_pos ⟨hKr.symm, hKr ▸ hk⟩]
    · rw [if_neg hKr, if_neg]
      rintro ⟨h1, _⟩
      exact hKr h1.symm

theorem buildIndex_foldl_apply {ρ α : Type} (keyOf : ρ → String) (fm : ρ → α) :
    ∀ (rows : List ρ) (m : String → List α) (K : String),
      (rows.foldl (buildIndexStep keyOf fm) m) K =
      m K ++ (rows.filter (fun r => keyOf r == K && !(K == ""))).map fm := by
  intro rows
  induction rows with
  | nil => intro m K; simp
  | cons r rows ih =>
      intro m K
      rw [List.foldl_cons, ih, List.filter_cons, buildIndexStep_apply]
      by_cases hc : keyOf r = K ∧ K ≠ ""
      · rw [if_pos hc]
        have hp : (keyOf r == K && !(K == "")) = true := by
          simp [hc.1]
          exact hc.2
        rw [hp]
        simp [List.append_assoc]
      · rw [if_neg hc]
        have hp : (keyOf r == K && !(K == "")) = false := by
          rcases not_and_or.mp hc with h | h
          · simp [h]
          · simp [not_not.mp h]
        rw [hp]
        simp

/-- What one lookup index answers for a key: exactly the order-preserving
formatted rows whose trimmed key equals the (non-blank) key. -/
theorem buildIndex_apply {ρ α : Type} (keyOf : ρ → String) (fm : ρ → α)
    (rows : List ρ) (K : String) :
    buildIndex keyOf fm rows K =
      (rows.filter (fun r => keyOf r == K && !(K == ""))).map fm := by
  have h := buildIndex_foldl_apply keyOf fm rows (fun _ => []) K
  simpa [buildIndex] using h

/-! ## Lemmas about the passenger distribution -/

theorem stripJoinAttach_stripJoinAttach (ps qs : List Passenger) (v : Vehicle) :
    stripJoinAttach ps (stripJoinAttach qs v) = stripJoinAttach ps v := rfl

theorem distributePassengers_idem (vs : List Vehicle) (ps : List Passenger) :
    distributePassengers (distributePassengers vs ps) ps =
      distributePassengers vs ps := by
  cases vs with
  | nil => rfl
  | cons v rest =>
      simp [distributePassengers, List.map_map, Function.comp,
        stripJoinAttach_stripJoinAttach]

theorem distributePassengers_length (vs : List Vehicle) (ps : List Passenger) :
    (distributePassengers vs ps).length = vs.length := by
  cases vs <;> simp [distributePassengers]

theorem distributePassengers_passengerDTOS (vs : List Vehicle) (ps : List Passenger)
    (j : Nat) (hj : j < (distributePassengers vs ps).length) :
    ((distributePassengers vs ps).get ⟨j, hj⟩).passengerDTOS =
      some (if j = 0 then ps else []) := by
  cases vs with
  | nil => simp [distributePassengers] at hj
  | cons v rest =>
      cases j with
      | zero => rfl
      | succ k =>
          have hk : k < rest.length := by
            have := hj
            simp [distributePassengers] at this
            omega
          show ((rest.map (stripJoinAttach [])).get ⟨k, _⟩).passengerDTOS = _
          rw [List.get_eq_getElem, List.getElem_map]
          simp [stripJoinAttach]

/-- Erase the merge-written fields of a vehicle: what remains is exactly the
content `formatVehicle` computed. -/
def vehicleCore (v : Vehicle) : Vehicle :=
  { v with passengerDTOS := none, accident_id := none, vehicle_id := none }

theorem vehicleCore_stripJoinAttach (ps : List Passenger) (v : Vehicle) :
    vehicleCore (stripJoinAttach ps v) = vehicleCore v := rfl

theorem distributePassengers_map_core (vs : List Vehicle) (ps : List Passenger) :
    (distributePassengers vs ps).map vehicleCore = vs.map vehicleCore := by
  cases vs with
  | nil => rfl
  | cons v rest =>
      simp [distributePassengers, List.map_map, Function.comp,
        vehicleCore_stripJoinAttach]

/-! ## Lemmas about the merge loop -/

/-- Invariant of the vehicle index during the streaming pass: each entry is
either still the built one or the built one after the in-place passenger
distribution for its own key. -/
def IdxInv (veh0 : String → List Vehicle) (pas : String → List Passenger)
    (vidx : String → List Vehicle) : Prop :=
  ∀ k, vidx k = veh0 k ∨ vidx k = distributePassengers (veh0 k) (pas k)

theorem IdxInv.refl (veh0 : String → List Vehicle) (pas : String → List Passenger) :
    IdxInv veh0 pas veh0 :=
  fun _ => Or.inl rfl

theorem mergeVehicles_inv {veh0 pas vidx} (raw : RawAccident)
    (h : IdxInv veh0 pas vidx) :
    mergeVehicles pas vidx raw = mergeVehicles pas veh0 raw := by
  unfold mergeVehicles
  rcases h (accidentKeyOf raw) with h1 | h1 <;> rw [h1]
  exact distributePassengers_idem _ _

theorem mergeIdx_inv {veh0 pas vidx} (raw : RawAccident)
    (h : IdxInv veh0 pas vidx) :
    IdxInv veh0 pas (mergeIdx pas vidx raw) := by
  intro k
  unfold mergeIdx
  by_cases hk : k = accidentKeyOf raw
  · right
    rw [if_pos hk, mergeVehicles_inv raw h]
    unfold mergeVehicles
    rw [hk]
  · rw [if_neg hk]
    exact h k

theorem mergeEmit_inv {veh0 pas vidx} (ped : String → List Pedestrian)
    (raw : RawAccident) (h : IdxInv veh0 pas vidx) :
    mergeEmit pas ped vidx raw = mergeEmit pas ped veh0 raw := by
  unfold mergeEmit
  rw [mergeVehicles_inv raw h]

/-- The emitted list of the stateful fold is the row-wise map of the pure
per-row emission against the freshly built indices. -/
theorem mergeStep_foldl_emits (pas : String → List Passenger)
    (ped : String → List Pedestrian) (veh0 : String → List Vehicle)
    (rows : List RawAccident) :
    ∀ (vidx : String → List Vehicle) (out : List Accident),
      IdxInv veh0 pas vidx →
      (rows.foldl (mergeStep pas ped) (vidx, out)).2 =
        out ++ rows.map (mergeEmit pas ped veh0) := by
  induction rows with
  | nil => intro vidx out _; simp
  | cons r rows ih =>
      intro vidx out h
      rw [List.foldl_cons]
      show (rows.foldl (mergeStep pas ped)
        (mergeIdx pas vidx r, out ++ [mergeEmit pas ped vidx r])).2 = _
      rw [ih _ _ (mergeIdx_inv r h), mergeEmit_inv ped r h]
      simp

/-- The final vehicle-index state satisfies the invariant. -/
theorem mergeStep_foldl_idx (pas : String → List Passenger)
    (ped : String → List Pedestrian) (veh0 : String → List Vehicle)
    (rows : List RawAccident) :
    ∀ (vidx : String → List Vehicle) (out : List Accident),
      IdxInv veh0 pas vidx →
      IdxInv veh0 pas (rows.foldl (mergeStep pas ped) (vidx, out)).1 := by
  induction rows with
  | nil => intro vidx out h; exact h
  | cons r rows ih =>
      intro vidx out h
      rw [List.foldl_cons]
      exact ih _ _ (mergeIdx_inv r h)

/-- The run emits one accident per row, each computed against the built
(unmutated) indices: re-running the in-place distribution is idempotent, so
the mutation is unobservable in the emitted stream. -/
theorem runMerge_eq_map (vehRows : List RawVehicle) (pasRows : List RawPassenger)
    (pedRows : List RawPedestrian) (accRows : List RawAccident) :
    runMerge vehRows pasRows pedRows accRows =
      accRows.map (mergeEmit (passengersByAccidentId pasRows)
        (pedestriansByAccidentId pedRows) (vehiclesByAccidentId vehRows)) := by
  unfold runMerge runMergeState
  rw [mergeStep_foldl_emits _ _ (vehiclesByAccidentId vehRows) _ _ _
    (IdxInv.refl _ _)]
  simp

theorem runMergeState_idx (vehRows : List RawVehicle) (pasRows : List RawPassenger)
    (pedRows : List RawPedestrian) (accRows : List RawAccident) :
    IdxInv (vehiclesByAccidentId vehRows) (passengersByAccidentId pasRows)
      (runMergeState vehRows pasRows pedRows accRows).1 := by
  unfold runMergeState
  exact mergeStep_foldl_idx _ _ _ _ _ _ (IdxInv.refl _ _)

theorem formatAccident_accident_id (a : RawAccident) :
    (formatAccident a).accident_id = some a.accident_id := rfl

theorem accidentKeyOf_eq (a : RawAccident) :
    accidentKeyOf a = jsTrim (jsStringOrEmpty a.accident_id) := rfl

/-! ## Lemmas about the writer -/

theorem writeLoop_false_eq (l : List String) :
    writeLoop false l =
      (match l with
       | [] => ""
       | x :: xs => ",\n" ++ (x ++ writeLoop false xs)) := by
  cases l <;> simp [writeLoop, String.append_assoc]

theorem writeLoop_true_eq (l : List String) :
    writeLoop true l = specJoinElements l := by
  induction l with
  | nil => rfl
  | cons x xs ih =>
      cases xs with
      | nil => simp [writeLoop, specJoinElements]
      | cons y ys =>
          have hx : writeLoop true (x :: y :: ys) =
              x ++ writeLoop false (y :: ys) := by simp [writeLoop]
          have hy : writeLoop false (y :: ys) = ",\n" ++ writeLoop true (y :: ys) := by
            simp [writeLoop, String.append_assoc]
          rw [hx, hy, ih]
          show x ++ (",\n" ++ specJoinElements (y :: ys)) = _
          rw [← String.append_assoc]
          rfl

/-! ## Lemmas about the date normalizer -/

/-- Shape of the `try` body: the trimmed input unchanged, a formatted
date/time, or the propagated exception. -/
theorem convertBody_shape (clean : String) :
    convertBody clean = .ok clean ∨
    (∃ dt : JsDateTime, convertBody clean = .ok (formatDateTime dt)) ∨
    convertBody clean = .error () := by
  unfold convertBody
  by_cases h1 : gregorianPatternTest clean
  · rw [if_pos h1]
    left
    rfl
  · rw [if_neg h1]
    by_cases h2 : jalaliPatternTest clean = false
    · rw [if_pos h2]
      left
      rfl
    · rw [if_neg h2]
      cases h : tryFormats (splitDateTime clean).1.data jalaliFormats with
      | error e =>
          cases e
          right; right
          rfl
      | ok o =>
          cases o with
          | none => left; rfl
          | some g =>
              right; left
              exact ⟨applyTime g (splitDateTime clean).2, rfl⟩

/-- A format the loop passes over: it parses to no valid moment, or to one
whose Gregorian year is outside [1900, 2100]. -/
def skipsFormat (cs : List Char) (fmt : List JTok) : Prop :=
  tryFormatStep cs fmt = .ok none ∨
  ∃ g, tryFormatStep cs fmt = .ok (some g) ∧ yearInRange g = false

theorem tryFormats_first_wins (cs : List Char) (g : Int × Int × Int) :
    ∀ (pre post : List (List JTok)) (fmt : List JTok),
      (∀ f ∈ pre, skipsFormat cs f) →
      tryFormatStep cs fmt = .ok (some g) → yearInRange g = true →
      tryFormats cs (pre ++ fmt :: post) = .ok (some g) := by
  intro pre
  induction pre with
  | nil =>
      intro post fmt _ hstep hyear
      show tryFormats cs (fmt :: post) = _
      unfold tryFormats
      rw [hstep]
      simp [hyear]
  | cons f pre ih =>
      intro post fmt hskip hstep hyear
      show tryFormats cs (f :: (pre ++ fmt :: post)) = _
      have hrest : tryFormats cs (pre ++ fmt :: post) = .ok (some g) :=
        ih post fmt (fun x hx => hskip x (List.mem_cons_of_mem _ hx)) hstep hyear
      rcases hskip f (List.mem_cons_self _ _) with hf | ⟨g2, hf, hg2⟩
      · unfold tryFormats
        rw [hf]
        exact hrest
      · unfold tryFormats
        rw [hf]
        simp [hg2, hrest]

theorem tryFormats_all_skip (cs : List Char) :
    ∀ fmts : List (List JTok),
      (∀ f ∈ fmts, skipsFormat cs f) → tryFormats cs fmts = .ok none := by
  intro fmts
  induction fmts with
  | nil => intro _; rfl
  | cons f fmts ih =>
      intro hskip
      have hrest := ih (fun x hx => hskip x (List.mem_cons_of_mem _ hx))
      rcases hskip f (List.mem_cons_self _ _) with hf | ⟨g2, hf, hg2⟩
      · unfold tryFormats
        rw [hf]
        exact hrest
      · unfold tryFormats
        rw [hf]
        simp [hg2, hrest]

/-! ## The matched-row lists the join claims speak about -/

/-- The vehicle rows whose trimmed, non-empty join key equals `K`, in source
order. -/
def matchedVehicleRows (rows : List RawVehicle) (K : String) : List RawVehicle :=
  rows.filter (fun r => jsTrim (jsStringOrEmpty r.vehicle_id) == K && !(K == ""))

/-- The passenger rows whose trimmed, non-empty join key equals `K`. -/
def matchedPassengerRows (rows : List RawPassenger) (K : String) : List RawPassenger :=
  rows.filter (fun r => jsTrim (jsStringOrEmpty r.passenger_id) == K && !(K == ""))

/-- The pedestrian rows whose trimmed, non-empty join key equals `K`. -/
def matchedPedestrianRows (rows : List RawPedestrian) (K : String) : List RawPedestrian :=
  rows.filter (fun r => jsTrim (jsStringOrEmpty r.pedestrian_id) == K && !(K == ""))

theorem vehiclesByAccidentId_apply (rows : List RawVehicle) (K : String) :
    vehiclesByAccidentId rows K = (matchedVehicleRows rows K).map formatVehicle :=
  buildIndex_apply _ _ rows K

theorem passengersByAccidentId_apply (rows : List RawPassenger) (K : String) :
    passengersByAccidentId rows K = (matchedPassengerRows rows K).map formatPassenger :=
  buildIndex_apply _ _ rows K

theorem pedestriansByAccidentId_apply (rows : List RawPedestrian) (K : String) :
    pedestriansByAccidentId rows K = (matchedPedestrianRows rows K).map formatPedestrian :=
  buildIndex_apply _ _ rows K

theorem matchedVehicleRows_blank (rows : List RawVehicle) :
    matchedVehicleRows rows "" = [] := by
  unfold matchedVehicleRows
  simp

theorem matchedPassengerRows_blank (rows : List RawPassenger) :
    matchedPassengerRows rows "" = [] := by
  unfold matchedPassengerRows
  simp

theorem matchedPedestrianRows_blank (rows : List RawPedestrian) :
    matchedPedestrianRows rows "" = [] := by
  unfold matchedPedestrianRows
  simp

/-- The element of the emitted stream at a row index is the pure per-row
emission for that row. -/
theorem runMerge_get (vehRows : List RawVehicle) (pasRows : List RawPassenger)
    (pedRows : List RawPedestrian) (accRows : List RawAccident) (i : Nat)
    (hi : i < accRows.length)
    (hi2 : i < (runMerge vehRows pasRows pedRows accRows).length) :
    (runMerge vehRows pasRows pedRows accRows).get ⟨i, hi2⟩ =
      mergeEmit (passengersByAccidentId pasRows) (pedestriansByAccidentId pedRows)
        (vehiclesByAccidentId vehRows) (accRows.get ⟨i, hi⟩) := by
  have hmap := runMerge_eq_map vehRows pasRows pedRows accRows
  rw [List.get_of_eq hmap, List.get_eq_getElem, List.getElem_map]
  rfl

/-! ## The claims -/

/-- C1. Join correctness: for every accident row with trimmed identifier
`K`, the emitted pedestrian list equals exactly the order-preserving list
of formatted pedestrian rows whose trimmed, non-empty join key equals `K`;
the emitted vehicle list is exactly the order-preserving list of formatted
vehicle rows matched the same way, transformed only by the documented
passenger attachment and join-key strip of the merge loop
(`distributePassengers`) — in particular, erasing those merge-written
fields (`vehicleCore`) recovers exactly the formatted matched vehicle rows
in order. A child row whose join key trims to the empty string is in no
`matched*Rows` list (their filters demand a non-empty key) and so never
appears in any output. -/
theorem claim1_join_correctness (vehRows : List RawVehicle)
    (pasRows : List RawPassenger) (pedRows : List RawPedestrian)
    (accRows : List RawAccident) (i : Nat) (hi : i < accRows.length)
    (hi2 : i < (runMerge vehRows pasRows pedRows accRows).length) :
    ((runMerge vehRows pasRows pedRows accRows).get ⟨i, hi2⟩).pedestrianDTOS =
      some ((matchedPedestrianRows pedRows
        (accidentKeyOf (accRows.get ⟨i, hi⟩))).map formatPedestrian) ∧
    ((runMerge vehRows pasRows pedRows accRows).get ⟨i, hi2⟩).vehicleDTOS =
      some (distributePassengers
        ((matchedVehicleRows vehRows
          (accidentKeyOf (accRows.get ⟨i, hi⟩))).map formatVehicle)
        ((matchedPassengerRows pasRows
          (accidentKeyOf (accRows.get ⟨i, hi⟩))).map formatPassenger)) ∧
    (((runMerge vehRows pasRows pedRows accRows).get ⟨i, hi2⟩).vehicleDTOS.getD
        []).map vehicleCore =
      ((matchedVehicleRows vehRows
        (accidentKeyOf (accRows.get ⟨i, hi⟩))).map formatVehicle).map vehicleCore := by
  rw [runMerge_get vehRows pasRows pedRows accRows i hi hi2]
  refine ⟨?_, ?_, ?_⟩
  · show some (pedestriansByAccidentId pedRows _) = _
    rw [pedestriansByAccidentId_apply]
  · show some (mergeVehicles _ _ _) = _
    unfold mergeVehicles
    rw [vehiclesByAccidentId_apply, passengersByAccidentId_apply]
  · show (some (mergeVehicles _ _ _) |>.getD []).map vehicleCore = _
    unfold mergeVehicles
    rw [vehiclesByAccidentId_apply, passengersByAccidentId_apply]
    exact distributePassengers_map_core _ _

def claim1WVehicle : RawVehicle := { vehicle_id := JsVal.str "9", color_name := JsVal.str "red" }

def claim1WAccident : RawAccident := { accident_id := JsVal.str " 9 " }

theorem claim1_witness :
    ((runMerge [claim1WVehicle] [] [] [claim1WAccident]).get ⟨0, by decide⟩).pedestrianDTOS =
      some [] ∧
    ((runMerge [claim1WVehicle] [] [] [claim1WAccident]).get ⟨0, by decide⟩).vehicleDTOS =
      some (distributePassengers [formatVehicle claim1WVehicle] []) := by
  have h := claim1_join_correctness [claim1WVehicle] [] [] [claim1WAccident] 0
    (by decide) (by decide)
  exact ⟨h.1, h.2.1.trans (by decide)⟩

/-- C2. Passenger placement: in every emitted accident, the vehicle at index
0 (when one exists) carries exactly the whole matched passenger list and
every vehicle at a positive index carries exactly the empty list — so no
passenger is split or duplicated across vehicles; and when zero vehicle
rows match the accident's key, the emitted vehicle list is empty, so that
accident's matched passengers appear nowhere in its output. -/
theorem claim2_passenger_placement (vehRows : List RawVehicle)
    (pasRows : List RawPassenger) (pedRows : List RawPedestrian)
    (accRows : List RawAccident) (i : Nat) (hi : i < accRows.length)
    (hi2 : i < (runMerge vehRows pasRows pedRows accRows).length) :
    (∀ (j : Nat)
       (hj : j < (((runMerge vehRows pasRows pedRows accRows).get
         ⟨i, hi2⟩).vehicleDTOS.getD []).length),
       ((((runMerge vehRows pasRows pedRows accRows).get
         ⟨i, hi2⟩).vehicleDTOS.getD []).get ⟨j, hj⟩).passengerDTOS =
         some (if j = 0 then
           (matchedPassengerRows pasRows
             (accidentKeyOf (accRows.get ⟨i, hi⟩))).map formatPassenger
           else [])) ∧
    (matchedVehicleRows vehRows (accidentKeyOf (accRows.get ⟨i, hi⟩)) = [] →
       ((runMerge vehRows pasRows pedRows accRows).get
         ⟨i, hi2⟩).vehicleDTOS.getD [] = []) := by
  constructor
  · intro j hj
    have hL : (((runMerge vehRows pasRows pedRows accRows).get
        ⟨i, hi2⟩).vehicleDTOS.getD []) =
        distributePassengers
          ((matchedVehicleRows vehRows
            (accidentKeyOf (accRows.get ⟨i, hi⟩))).map formatVehicle)
          ((matchedPassengerRows pasRows
            (accidentKeyOf (accRows.get ⟨i, hi⟩))).map formatPassenger) := by
      rw [runMerge_get vehRows pasRows pedRows accRows i hi hi2]
      show mergeVehicles _ _ _ = _
      unfold mergeVehicles
      rw [vehiclesByAccidentId_apply, passengersByAccidentId_apply]
    rw [List.get_of_eq hL]
    exact distributePassengers_passengerDTOS _ _ j _
  · intro hnone
    rw [runMerge_get vehRows pasRows pedRows accRows i hi hi2]
    show mergeVehicles _ _ _ = []
    unfold mergeVehicles
    rw [vehiclesByAccidentId_apply, hnone]
    rfl

def claim2WPassenger : RawPassenger := { passenger_id := JsVal.str "9", firstName := JsVal.str "p1" }

theorem claim2_witness :
    ((((runMerge [claim1WVehicle] [claim2WPassenger] [] [claim1WAccident]).get
      ⟨0, by decide⟩).vehicleDTOS.getD []).get ⟨0, by decide⟩).passengerDTOS =
      some [formatPassenger claim2WPassenger] := by
  have h := claim2_passenger_placement [claim1WVehicle] [claim2WPassenger] []
    [claim1WAccident] 0 (by decide) (by decide)
  have h0 := h.1 0 (by decide)
  exact h0.trans (by decide)

/-- C10. An accident row whose identifier is missing or trims to the empty
string is still formatted and emitted (the output has one element per input
row, none skipped), and its emitted vehicle and pedestrian lists are empty
(the empty key matches no index entry, every blank-keyed child having been
dropped during index construction), so its passengers are absent too. -/
theorem claim10_blank_id_accident (vehRows : List RawVehicle)
    (pasRows : List RawPassenger) (pedRows : List RawPedestrian)
    (accRows : List RawAccident) (i : Nat) (hi : i < accRows.length)
    (hi2 : i < (runMerge vehRows pasRows pedRows accRows).length)
    (hblank : accidentKeyOf (accRows.get ⟨i, hi⟩) = "") :
    (runMerge vehRows pasRows pedRows accRows).length = accRows.length ∧
    ((runMerge vehRows pasRows pedRows accRows).get ⟨i, hi2⟩).vehicleDTOS =
      some [] ∧
    ((runMerge vehRows pasRows pedRows accRows).get ⟨i, hi2⟩).pedestrianDTOS =
      some [] := by
  refine ⟨?_, ?_, ?_⟩
  · rw [runMerge_eq_map]
    exact List.length_map _ _
  · rw [runMerge_get vehRows pasRows pedRows accRows i hi hi2]
    show some (mergeVehicles _ _ _) = _
    unfold mergeVehicles
    rw [hblank, vehiclesByAccidentId_apply, matchedVehicleRows_blank]
    rfl
  · rw [runMerge_get vehRows pasRows pedRows accRows i hi hi2]
    show some (pedestriansByAccidentId pedRows _) = _
    rw [hblank, pedestriansByAccidentId_apply, matchedPedestrianRows_blank]
    rfl

def claim10WAccident : RawAccident := { accident_id := JsVal.str "   " }

theorem claim10_witness :
    ((runMerge [claim1WVehicle] [claim2WPassenger] [] [claim10WAccident]).get
      ⟨0, by decide⟩).vehicleDTOS = some [] := by
  have h := claim10_blank_id_accident [claim1WVehicle] [claim2WPassenger] []
    [claim10WAccident] 0 (by decide) (by decide) (by decide)
  exact h.2.1

/-- C3 counterexample inputs: one vehicle row joined to one accident row by
key `"1"`. After the streaming pass, the vehicle stored in the index has
been mutated in place (its `passengerDTOS` assigned, its join keys
deleted), so the index entry no longer equals what was inserted. -/
def claim3VehicleRow : RawVehicle := { vehicle_id := JsVal.str "1" }

def claim3AccidentRow : RawAccident := { accident_id := JsVal.str "1" }

/-- C3 counterexample: the claim says the merge pass leaves every entity of
the three indices unchanged, but after processing one matching accident the
vehicle index's entry for key `"1"` differs from the entry as built. -/
theorem claim3_counterexample :
    (runMergeState [claim3VehicleRow] [] [] [claim3AccidentRow]).1 "1" ≠
      vehiclesByAccidentId [claim3VehicleRow] "1" := by
  decide

/-- C3 amended: passenger and pedestrian entities are never mutated (their
indices are read-only throughout the model), and the vehicle index is
mutated only in the documented way: after the run each entry is either
untouched or is its built value with the passenger attachment and join-key
deletion applied in place — erasing exactly those merge-written fields
(`vehicleCore`) recovers every stored vehicle as inserted, in order. -/
theorem claim3_amended (vehRows : List RawVehicle) (pasRows : List RawPassenger)
    (pedRows : List RawPedestrian) (accRows : List RawAccident) (k : String) :
    ((runMergeState vehRows pasRows pedRows accRows).1 k =
        vehiclesByAccidentId vehRows k ∨
     (runMergeState vehRows pasRows pedRows accRows).1 k =
        distributePassengers (vehiclesByAccidentId vehRows k)
          (passengersByAccidentId pasRows k)) ∧
    ((runMergeState vehRows pasRows pedRows accRows).1 k).map vehicleCore =
      (vehiclesByAccidentId vehRows k).map vehicleCore := by
  have h := runMergeState_idx vehRows pasRows pedRows accRows k
  refine ⟨h, ?_⟩
  rcases h with h | h <;> rw [h]
  exact distributePassengers_map_core _ _

/-- C4. The normalizer is total and never raises: blank input yields the
empty string, and every result is the empty string, the trimmed input
(conversion did not apply), the original input (the `catch` branch — every
internal failure is caught there), or a formatted Gregorian date string. -/
theorem claim4_normalizer_total (s : String) :
    (jsTrim s = "" → convertJalaliToGregorian s = "") ∧
    (convertJalaliToGregorian s = "" ∨ convertJalaliToGregorian s = jsTrim s ∨
     convertJalaliToGregorian s = s ∨
     ∃ dt : JsDateTime, convertJalaliToGregorian s = formatDateTime dt) := by
  constructor
  · intro h
    simp [convertJalaliToGregorian, h]
  · by_cases ht : jsTrim s = ""
    · left
      simp [convertJalaliToGregorian, ht]
    · rcases convertBody_shape (jsTrim s) with h | ⟨dt, h⟩ | h
      · right; left
        simp [convertJalaliToGregorian, ht, h]
      · right; right; right
        exact ⟨dt, by simp [convertJalaliToGregorian, ht, h]⟩
      · right; right; left
        simp [convertJalaliToGregorian, ht, h]

theorem claim4_witness :
    convertJalaliToGregorian "   " = "" :=
  (claim4_normalizer_total "   ").1 (by decide)

/-- C5. Layout tie-break: the format list has exactly eight layouts in
declared order; whenever every layout before some layout `fmt` is skipped
(parses to no valid moment, or to a Gregorian year outside [1900, 2100])
and `fmt` parses with a year in range, the loop's answer is `fmt`'s —
whatever the later layouts (`post` is universally quantified) would say;
when every one of the eight layouts is skipped, the normalizer returns the
original trimmed string; and on a Jalali-candidate input the loop's winner
determines the normalizer's result (the formatted winning date with the
captured time applied). -/
theorem claim5_layout_tiebreak :
    jalaliFormats.length = 8 ∧
    (∀ (cs : List Char) (pre post : List (List JTok)) (fmt : List JTok)
       (g : Int × Int × Int),
       jalaliFormats = pre ++ fmt :: post →
       (∀ f ∈ pre, skipsFormat cs f) →
       tryFormatStep cs fmt = .ok (some g) →
       yearInRange g = true →
       tryFormats cs jalaliFormats = .ok (some g)) ∧
    (∀ s : String,
       (∀ f ∈ jalaliFormats, skipsFormat (splitDateTime (jsTrim s)).1.data f) →
       convertJalaliToGregorian s = jsTrim s) ∧
    (∀ (s : String) (g : Int × Int × Int),
       jsTrim s ≠ "" →
       gregorianPatternTest (jsTrim s) = false →
       jalaliPatternTest (jsTrim s) = true →
       tryFormats (splitDateTime (jsTrim s)).1.data jalaliFormats = .ok (some g) →
       convertJalaliToGregorian s =
         formatDateTime (applyTime g (splitDateTime (jsTrim s)).2)) := by
  refine ⟨rfl, ?_, ?_, ?_⟩
  · intro cs pre post fmt g heq hskip hstep hyear
    rw [heq]
    exact tryFormats_first_wins cs g pre post fmt hskip hstep hyear
  · intro s hskip
    by_cases ht : jsTrim s = ""
    · simp [convertJalaliToGregorian, ht]
    · have hbody : convertBody (jsTrim s) = .ok (jsTrim s) := by
        unfold convertBody
        by_cases h1 : gregorianPatternTest (jsTrim s)
        · rw [if_pos h1]
        · rw [if_neg h1]
          by_cases h2 : jalaliPatternTest (jsTrim s) = false
          · rw [if_pos h2]
          · rw [if_neg h2]
            rw [tryFormats_all_skip _ _ hskip]
      simp [convertJalaliToGregorian, ht, hbody]
  · intro s g ht h1 h2 hwin
    have hbody : convertBody (jsTrim s) =
        .ok (formatDateTime (applyTime g (splitDateTime (jsTrim s)).2)) := by
      unfold convertBody
      rw [if_neg (by rw [h1]; exact Bool.false_ne_true), if_neg (by rw [h2]; simp),
        hwin]
    simp [convertJalaliToGregorian, ht, hbody]

theorem claim5_witness :
    tryFormats ("04/11/1398".data) jalaliFormats = .ok (some (2019, 7, 2)) :=
  claim5_layout_tiebreak.2.1 ("04/11/1398".data) [] jalaliFormats.tail
    [JTok.month, JTok.lit '/', JTok.day, JTok.lit '/', JTok.year] (2019, 7, 2)
    (by decide) (by intro f hf; simp at hf) (by rfl) (by decide)

/-- C6 counterexample: on `"04/11/1398"` the normalizer's fixed result is
`"Jul 2, 2019, 12:00:00 AM"` (the first layout reads month 04, day 11,
Jalali year 1398, i.e. 1398-04-11 = 2019-07-02 Gregorian), which is not the
rendering of 2020-01-31 the claim asserts. -/
theorem claim6_counterexample :
    convertJalaliToGregorian "04/11/1398" = "Jul 2, 2019, 12:00:00 AM" ∧
    ¬ convertJalaliToGregorian "04/11/1398" = "Jan 31, 2020, 12:00:00 AM" := by
  constructor
  · rfl
  · decide

/-- C6 amended: on the concrete input `"04/11/1398"` with no time portion,
the normalizer returns the fixed Gregorian date string
`"Jul 2, 2019, 12:00:00 AM"` (equivalent to 2019-07-02) with time
component `12:00:00 AM`. -/
theorem claim6_fixed_gregorian_output :
    convertJalaliToGregorian "04/11/1398" = "Jul 2, 2019, 12:00:00 AM" := by
  rfl

/-- C7. Gregorian short-circuit: when the (trimmed) input contains a
word-bounded 4-digit year token in [1900, 2099], the normalizer returns the
trimmed input unchanged — no Jalali conversion is attempted. -/
theorem claim7_gregorian_short_circuit (s : String)
    (h : gregorianPatternTest (jsTrim s) = true) :
    convertJalaliToGregorian s = jsTrim s := by
  by_cases ht : jsTrim s = ""
  · simp [convertJalaliToGregorian, ht]
  · have hbody : convertBody (jsTrim s) = .ok (jsTrim s) := by
      unfold convertBody
      rw [if_pos h]
    simp [convertJalaliToGregorian, ht, hbody]

theorem claim7_witness :
    convertJalaliToGregorian " recorded 2019-05-06 " = jsTrim " recorded 2019-05-06 " :=
  claim7_gregorian_short_circuit " recorded 2019-05-06 " (by decide)

/-- C8 defaulting inputs: a numeric column holding `"abc"`, one holding
`""`, a wrong-case boolean `"TRUE"` and an empty multi-value column. -/
def claim8Row : RawAccident :=
  { serialNO := JsVal.str "abc", deadCount := JsVal.str "",
    hasWitness := JsVal.str "TRUE", areaUsages := JsVal.str "" }

/-- C8. Field defaulting: numeric raw `""` or `"abc"` coerces to 0 (both
through the helpers and through `formatAccident`); the boolean field is
true exactly for the string `"true"` or the boolean `true`, so `"TRUE"`
coerces to false; an empty multi-value column becomes the empty list. -/
theorem claim8_field_defaulting :
    parseNumeric (JsVal.str "") = JsNum.fin 0 0 ∧
    parseNumeric (JsVal.str "abc") = JsNum.fin 0 0 ∧
    parseId (JsVal.str "") = 0 ∧
    parseId (JsVal.str "abc") = 0 ∧
    hasWitnessOf (JsVal.str "TRUE") = false ∧
    (∀ v : JsVal, hasWitnessOf v = true ↔ (v = JsVal.str "true" ∨ v = JsVal.bool true)) ∧
    parseStringArray (JsVal.str "") "area" = [] ∧
    (formatAccident claim8Row).serialNO = JsNum.fin 0 0 ∧
    (formatAccident claim8Row).deadCount = JsNum.fin 0 0 ∧
    (formatAccident claim8Row).hasWitness = false ∧
    (formatAccident claim8Row).areaUsages = [] := by
  refine ⟨by decide, by decide, by decide, by decide, by decide, ?_,
    by decide, by decide, by decide, by decide, by decide⟩
  intro v
  cases v with
  | undef => simp [hasWitnessOf]
  | str t => simp [hasWitnessOf]
  | bool b => cases b <;> simp [hasWitnessOf]

/-- C9. Output array framing: everything the writer emits is `"[\n"` once,
the serialized elements joined by a single `",\n"` separator before every
element except the first, then `"\n]\n"` — and there is exactly one element
per primary input row, so the output is a well-formed JSON array of N
elements with no stray leading or trailing commas. -/
theorem claim9_output_framing (vehRows : List RawVehicle)
    (pasRows : List RawPassenger) (pedRows : List RawPedestrian)
    (accRows : List RawAccident) :
    mainOutput vehRows pasRows pedRows accRows =
      "[\n" ++ specJoinElements
        ((runMerge vehRows pasRows pedRows accRows).map serializeEmitted) ++
      "\n]\n" ∧
    ((runMerge vehRows pasRows pedRows accRows).map serializeEmitted).length =
      accRows.length := by
  constructor
  · unfold mainOutput
    rw [writeLoop_true_eq]
  · rw [runMerge_eq_map]
    simp
